import Mathlib

/-!
# Verification of the TCtracker data-aggregation core

Shallow embedding of the data-aggregation engine of the TCtracker
repository (`plot_tc_csc/tstorms`):

* the spatial-histogram binning loop of `ori.__init__`
  (`plot_tc_csc/tstorms/ori/__init__.py`, lines 95-132);
* the per-year file concatenation `ori.cat_ori_files` (lines 134-146);
* the statistics-report parser `ori._read_stats` (lines 221-254).

Python floats are modelled as rationals (every constant involved in the
verified claims is exactly representable in binary floating point, and the
arithmetic in question — division by 5 or 4, adding 0.5 — is exact at each
of the inputs the theorems evaluate), machine integers as `Int`/`Nat`,
fallible operations as `Option`/`Except`, and the file system as an
explicit function from path names to optional file contents.
-/

namespace TCtracker

/-! ## Python primitives -/

/-- Python `int(x)` applied to a float: truncation toward zero
(`int(0.25) = 0`, `int(-0.3) = 0`, `int(-1.7) = -1`).
Stated via the executable `Rat.floor`; `pyInt_eq` relates it to `⌊⌋`/`⌈⌉`. -/
def pyInt (q : ℚ) : ℤ := if 0 ≤ q then q.floor else -(Rat.floor (-q))


/-- Python `range(a, b)` as a list of integers: `a, a+1, ..., b-1`. -/
def pyRange (a b : ℤ) : List ℤ :=
  (List.range (b - a).toNat).map (fun (k : ℕ) => a + (k : ℤ))

/-! ## Histogram constants (class attributes of `ori`) -/

/-- Constant `DLON = 5.0`, the longitude region delta. -/
def DLON : ℚ := 5

/-- Constant `DLAT = 4.0`, the latitude region delta. -/
def DLAT : ℚ := 4

/-- Constant `SLAT = -86.0`, the lowest southern latitude. -/
def SLAT : ℚ := -86

/-- Extent `ix = int(360.0/self.DLON)` of the longitude axis (= 72). -/
def ix : ℤ := pyInt (360 / DLON)

/-- Extent `jx = int((90-self.SLAT)/self.DLAT)` of the latitude axis (= 44). -/
def jx : ℤ := pyInt ((90 - SLAT) / DLAT)

/-! ## Index computation (`ori.__init__`, lines 124-131) -/

/-- Index `i = int(xcyc/self.DLON + 0.5)`: the raw longitude index before
wraparound. -/
def lonIndexRaw (xcyc : ℚ) : ℤ := pyInt (xcyc / DLON + 1/2)

/-- The longitude index after the wraparound branch
`if i < 0: i = ix + i; elif i >= ix: i = i - ix`. -/
def lonIndex (xcyc : ℚ) : ℤ :=
  let i := lonIndexRaw xcyc
  if i < 0 then ix + i else if i ≥ ix then i - ix else i

/-- Index `j = int((ycyc - self.SLAT)/self.DLAT + 0.5)`: the latitude index.
No wraparound branch exists for `j` in the source. -/
def latIndex (ycyc : ℚ) : ℤ := pyInt ((ycyc - SLAT) / DLAT + 1/2)

/-! ## The histogram grid and the ingestion loop (`ori.__init__`, lines 103-132) -/

/-- One line of an `ori_<year>` file, already split into its six
whitespace-separated fields
(`xcyc, ycyc, year, month, day, hour = line.split()` and the numeric
conversions, lines 111-119). -/
structure EventLine where
  xcyc : ℚ
  ycyc : ℚ
  year : ℤ
  month : ℤ
  day : ℤ
  hour : ℤ
deriving DecidableEq

/-- The `numpy.zeros((ix, jx), dtype=int)` histogram `storm_count`,
as a function from grid cell to count. -/
def Grid : Type := Fin 72 × Fin 44 → ℕ

/-- The zero-initialized grid. -/
def zeroGrid : Grid := fun _ => 0

/-- The total of all cells, `sum(storm_count)`. -/
def gridSum (g : Grid) : ℕ := ∑ c : Fin 72 × Fin 44, g c

/-- numpy integer indexing into an axis of length `n`: an index in `[0, n)` is
used directly, an index in `[-n, 0)` wraps to `n + i`, and anything else
raises `IndexError`. -/
def numpyIndex (n : ℕ) (i : ℤ) : Option (Fin n) :=
  if h : 0 ≤ i ∧ i < n then some ⟨i.toNat, by omega⟩
  else if h' : -(n : ℤ) ≤ i ∧ i < 0 then some ⟨((n : ℤ) + i).toNat, by omega⟩
  else none

/-- Statement `self.storm_count[i][j] += 1` for one parsed line, with `i` and `j`
computed as in lines 124-131; `none` models the `IndexError` numpy raises
when an index is outside `[-n, n)`. -/
def ingestLine (g : Grid) (l : EventLine) : Option Grid :=
  match numpyIndex 72 (lonIndex l.xcyc), numpyIndex 44 (latIndex l.ycyc) with
  | some i, some j => some (Function.update g (i, j) (g (i, j) + 1))
  | _, _ => none

/-- The inner `for line in infile` loop over one file's lines. -/
def ingestLines (g : Grid) : List EventLine → Option Grid
  | [] => some g
  | l :: ls =>
    match ingestLine g l with
    | some g' => ingestLines g' ls
    | none => none

/-! ## File names and the file system -/

/-- Decimal digits, most significant first, by structural recursion on a
fuel argument (so that the kernel can evaluate it). -/
def natDigitsAux : ℕ → ℕ → List Char
  | 0, _ => []
  | fuel + 1, n =>
    if n < 10 then [Char.ofNat (48 + n)]
    else natDigitsAux fuel (n / 10) ++ [Char.ofNat (48 + n % 10)]

/-- Decimal digits of a natural number, most significant first. -/
def natDigits (n : ℕ) : List Char := natDigitsAux (n + 1) n

/-- Python `"{:04d}".format(y)`: zero-pad to overall width 4, sign included
(`2001 ↦ "2001"`, `7 ↦ "0007"`, `-7 ↦ "-007"`). -/
def pad4 (y : ℤ) : String :=
  let ds := natDigits y.natAbs
  let w : ℕ := if y < 0 then 3 else 4
  String.mk ((if y < 0 then ['-'] else []) ++ List.replicate (w - ds.length) '0' ++ ds)

/-- Python `os.path.join(d, s)` for a relative, non-empty second component. -/
def pathJoin (d s : String) : String :=
  if d = "" then s else if d.endsWith "/" then d ++ s else d ++ "/" ++ s

/-- Path `os.path.join(self.directory, "ori_{:04d}".format(year))`. -/
def oriPath (d : String) (y : ℤ) : String := pathJoin d ("ori_" ++ pad4 y)

/-- The errors the embedded fragments of `ori` can raise: `FileNotFoundError`
from `open` on an absent file (the situation the spec's `MissingDataError`
names), and numpy's `IndexError` on an out-of-range histogram index. -/
inductive PyErr where
  | fileNotFound (path : String)
  | indexError
deriving DecidableEq

/-- The per-year reading-and-binning loop of `ori.__init__` (lines 105-132),
over the years list; the file system is a map from path to the optional
list of (already split) lines. -/
def oriInitGo (fs : String → Option (List EventLine)) (dir : String) :
    List ℤ → Grid → Except PyErr Grid
  | [], g => .ok g
  | y :: ys, g =>
    match fs (oriPath dir y) with
    | none => .error (.fileNotFound (oriPath dir y))
    | some ls =>
      match ingestLines g ls with
      | none => .error .indexError
      | some g' => oriInitGo fs dir ys g'

/-- The storm-frequency construction of `ori.__init__`:
`for year in range(beg_year, end_year + 1): ...` starting from the
zero-initialized `storm_count`. -/
def oriInit (fs : String → Option (List EventLine)) (dir : String)
    (begYear endYear : ℤ) : Except PyErr Grid :=
  oriInitGo fs dir (pyRange begYear (endYear + 1)) zeroGrid

/-! ## `ori.cat_ori_files` (lines 134-146) -/

/-- Method `ori.cat_ori_files`, modelled with the file system as a map from path to
content (a byte/char list) and `os.path.realpath` as an abstract function
`rp`.  Returns the pair (content written to the combined file, value
returned by the method).  The loop variable `fname` is re-bound to each
per-year input path, exactly as in the source, so the returned value is
`rp` applied to the final binding of `fname`. -/
def cat_ori_files (rp : String → String) (fs : String → List Char)
    (directory : String) (startYear endYear : ℤ) (fname : String) :
    List Char × String :=
  let r := (pyRange startYear (endYear + 1)).foldl
    (fun (acc : List Char × String) (year : ℤ) =>
      let f := oriPath directory year
      (acc.1 ++ fs f, f))
    ([], fname)
  (r.1, rp r.2)

/-! ## The regex patterns of `ori._read_stats` (lines 230-232)

`__boxhdr = ^ {2}\*{3} Box = {1,2}([A-Z]{1,2})$`
`__yearln = ^ *([0-9]+)((?: *[0-9]+){12}) *([0-9]+)$`
`__statln = ^ *(sum|sprd|mean|std)((?: *[0-9.]+){13})$`

All three are anchored matches (`re.match`), implemented here directly on
the character list of the line.  The quantified groups `(?: *[0-9]+){n}`
are implemented by `grpSplitBy`, a greedy longest-first backtracking
splitter with the same language and capture semantics as the regex engine
(the ` *` parts are deterministic, because shortening them exposes a space
to `[0-9]`, so only digit-group lengths backtrack). -/

/-- Class `[A-Z]`. -/
def isUpperAZ (c : Char) : Bool := 'A' ≤ c && c ≤ 'Z'

/-- Class `[0-9]`. -/
def isDigitC (c : Char) : Bool := '0' ≤ c && c ≤ '9'

/-- Class `[0-9.]`. -/
def isDigitDot (c : Char) : Bool := isDigitC c || c = '.'

/-- Tail `([A-Z]{1,2})$`: the whole remainder is one or two uppercase letters. -/
def hdrCode : List Char → Option String
  | [c] => if isUpperAZ c then some (String.mk [c]) else none
  | [c, d] => if isUpperAZ c && isUpperAZ d then some (String.mk [c, d]) else none
  | _ => none

/-- Match `__boxhdr.match(line)`: two spaces, three asterisks, " Box =", one or
two spaces, then the 1-2 letter code; returns `group(1)`. -/
def matchBoxHdr (s : List Char) : Option String :=
  match s with
  | ' ' :: ' ' :: '*' :: '*' :: '*' :: ' ' :: 'B' :: 'o' :: 'x' :: ' ' :: '=' :: ' ' :: rest =>
    (match rest with
     | ' ' :: rest2 => hdrCode rest2
     | _ => hdrCode rest)
  | _ => none

/-- Splits `cs` into exactly `n` chunks matching ` *(charset)+`, with nothing
left over, greedy longest-first on each group as the regex engine would.
Each returned chunk is (number of preceding spaces, group characters). -/
def grpSplitBy (charset : Char → Bool) : ℕ → List Char → Option (List (ℕ × List Char))
  | 0, cs => if cs = [] then some [] else none
  | n + 1, cs =>
    let sp := (cs.takeWhile (fun c => c = ' ')).length
    let cs1 := cs.dropWhile (fun c => c = ' ')
    let run := cs1.takeWhile charset
    let rest := cs1.dropWhile charset
    if run = [] then none
    else
      (List.range run.length).reverse.findSome? fun jm1 =>
        (grpSplitBy charset n (run.drop (jm1 + 1) ++ rest)).map
          (fun ps => (sp, run.take (jm1 + 1)) :: ps)

/-- The text of a chunk as matched, spaces included. -/
def chunkText (p : ℕ × List Char) : List Char := List.replicate p.1 ' ' ++ p.2

/-- Match `__yearln.match(line)`: on success returns
(`group(1)`, `group(2)`, `group(3)`) — the leading year, the raw text of
the 12 monthly counts, and the trailing annual total. -/
def matchYearLn (s : List Char) : Option (String × String × String) :=
  match grpSplitBy isDigitC 14 s with
  | some (p1 :: ps) =>
    (match ps.drop 12 with
     | [p14] => some (String.mk p1.2, String.mk ((ps.take 12).map chunkText).flatten,
                      String.mk p14.2)
     | _ => none)
  | _ => none

/-- Drops `pre` from the front of `cs` if it is literally there. -/
def stripPrefixChars : List Char → List Char → Option (List Char)
  | [], cs => some cs
  | p :: ps, c :: cs => if c = p then stripPrefixChars ps cs else none
  | _ :: _, [] => none

/-- The alternation `(sum|sprd|mean|std)`; no label is a prefix of another,
so at most one alternative can apply and engine order is immaterial. -/
def statLabels : List String := ["sum", "sprd", "mean", "std"]

/-- Match `__statln.match(line)`: on success returns (`group(1)`, `group(2)`) —
the label and the raw text of the 13 values. -/
def matchStatLn (s : List Char) : Option (String × String) :=
  let cs := s.dropWhile (fun c => c = ' ')
  statLabels.findSome? fun lb =>
    match stripPrefixChars lb.data cs with
    | some rest =>
      (grpSplitBy isDigitDot 13 rest).map
        (fun ps => (lb, String.mk (ps.map chunkText).flatten))
    | none => none

/-! ## `StormBox` (modelled from the spec) -/

/-- Digits to a natural number (tokens fed to it are all-digit by
construction of the matchers). -/
def parseNatChars (cs : List Char) : ℕ :=
  cs.foldl (fun a c => a * 10 + (c.toNat - 48)) 0

/-- Python `str.split()`: split on runs of spaces, dropping empty pieces. -/
def splitWsAux : List Char → List Char → List (List Char)
  | [], acc => if acc = [] then [] else [acc.reverse]
  | c :: cs, acc =>
    if c = ' ' then
      (if acc = [] then splitWsAux cs [] else acc.reverse :: splitWsAux cs [])
    else splitWsAux cs (c :: acc)

/-- Python `str.split()` on a char list. -/
def splitWs (cs : List Char) : List (List Char) := splitWsAux cs []

/-- Power `10 ^ n` over `ℤ`, by plain recursion. -/
def pow10 : ℕ → ℤ
  | 0 => 1
  | n + 1 => 10 * pow10 n

/-- Python `float(tok)` for a `[0-9.]+` token of the report: the digits
before the first dot, an optional fraction after it.  (A token with a
second dot would make Python's `float` raise; no verified claim feeds one.) -/
def parseDec (cs : List Char) : ℚ :=
  let ip := cs.takeWhile isDigitC
  let rest := cs.dropWhile isDigitC
  let fp : List Char :=
    match rest with
    | '.' :: frac => frac.takeWhile isDigitC
    | _ => []
  Rat.divInt (parseNatChars (ip ++ fp) : ℤ) (pow10 fp.length)

/-- Modelled from the spec: the class `StormBox` is defined in
`plot_tc_csc/tstorms/ori/StormBox.py`, which is not among the provided
source files; this record follows the spec's `RegionStatsRecord`: a region
id, an ordered sequence of `(year, monthly_counts[12], annual_total)`
tuples in file order, and named aggregate rows (`sum`/`sprd`/`mean`/`std`),
each a sequence of 13 values. -/
structure StormBox where
  id : String
  storms : List (ℤ × List ℤ × ℤ)
  stats : List (String × List ℚ)
deriving DecidableEq

/-- Modelled from the spec: `StormBox(code)` starts an empty record. -/
def StormBox.new (code : String) : StormBox := ⟨code, [], []⟩

/-- Modelled from the spec: `box.add_storms(group1, group2, group3)` appends
one `(year, monthly_counts, annual_total)` tuple, splitting the raw
`group(2)` text into its 12 integers. -/
def StormBox.add_storms (b : StormBox) (yr monthly total : String) : StormBox :=
  { b with
    storms := b.storms ++
      [((parseNatChars yr.data : ℤ),
        (splitWs monthly.data).map (fun t => (parseNatChars t : ℤ)),
        (parseNatChars total.data : ℤ))] }

/-- Modelled from the spec: `box.add_stats(group1, group2)` records the
aggregate row for the label, splitting the raw `group(2)` text into its 13
floats. -/
def StormBox.add_stats (b : StormBox) (label vals : String) : StormBox :=
  { b with stats := b.stats ++ [(label, (splitWs vals.data).map parseDec)] }

/-! ## The `_read_stats` state machine (lines 234-254) -/

/-- Python `dict` assignment `d[k] = v`: replace in place if the key is
present, append otherwise. -/
def dictStore (m : List (String × StormBox)) (k : String) (v : StormBox) :
    List (String × StormBox) :=
  if m.any (fun kv => kv.1 = k) then
    m.map (fun kv => if kv.1 = k then (k, v) else kv)
  else m ++ [(k, v)]

/-- Where control sits in `_read_stats`: in the outer `for line in f` loop
(`seek`); just after a header match with the unconditional `next(f, None)`
column-header skip still pending (`skip`); or in the inner `for line2 in f`
loop with an open box (`inSec`). -/
inductive PState where
  | seek : PState
  | skip : StormBox → PState
  | inSec : StormBox → PState

/-- One pass of `_read_stats` over the remaining lines.  Both loops consume
lines from the same file iterator, so every step eats exactly one line:
a header line moves `seek → skip`; the skipped column-header line moves
`skip → inSec`; inside a section a year line or stat line updates the open
box, and any other line stores the box and `break`s back to the outer loop
— with that boundary line consumed.  At end of input the accumulated dict
is returned as is; a box still open in `skip`/`inSec` state is dropped,
because the inner loop ends without reaching its `else` branch. -/
def readGo (acc : List (String × StormBox)) : PState → List String →
    List (String × StormBox)
  | _, [] => acc
  | .seek, line :: rest =>
    (match matchBoxHdr line.data with
     | some code => readGo acc (.skip (StormBox.new code)) rest
     | none => readGo acc .seek rest)
  | .skip box, _ :: rest => readGo acc (.inSec box) rest
  | .inSec box, line2 :: rest =>
    (match matchYearLn line2.data with
     | some (g1, g2, g3) => readGo acc (.inSec (box.add_storms g1 g2 g3)) rest
     | none =>
       match matchStatLn line2.data with
       | some (g1, g2) => readGo acc (.inSec (box.add_stats g1 g2)) rest
       | none => readGo (dictStore acc box.id box) .seek rest)

/-- Method `ori._read_stats`: parse the stat-file lines into the ordered dict of
`StormBox`es keyed by box id. -/
def read_stats (lines : List String) : List (String × StormBox) :=
  readGo [] .seek lines

/-! ## Concrete inputs used by the scenario theorems and witnesses -/

/-- The spec's §8 back-to-back-sections scenario: an `NH` section whose data
lines are followed immediately by the `SH` header, with no blank separator. -/
def sec8Report : List String :=
  ["  *** Box = NH",
   "  yr  jan feb mar apr may jun jul aug sep oct nov dec  total",
   "2001    1 2 3 4 5 6 7 8 9 10 11 12   78",
   "mean 1.0 2.0 3.0 4.0 5.0 6.0 7.0 8.0 9.0 10.0 11.0 12.0 78.0",
   "  *** Box = SH"]

/-- The `StormBox` that parsing `sec8Report` actually produces for `NH`. -/
def nhBoxExpected : StormBox :=
  ⟨"NH", [(2001, [1, 2, 3, 4, 5, 6, 7, 8, 9, 10, 11, 12], 78)],
   [("mean", [1, 2, 3, 4, 5, 6, 7, 8, 9, 10, 11, 12, 78])]⟩

/-- A report whose stream ends while the `NH` section is still open: the
last line is a data line, never followed by a non-matching line. -/
def eofOpenReport : List String :=
  ["  *** Box = NH",
   "  yr  jan feb mar apr may jun jul aug sep oct nov dec  total",
   "2001    1 2 3 4 5 6 7 8 9 10 11 12   78"]

/-- Whether one event line's computed indices are accepted by numpy
(no `IndexError`); independent of the grid contents. -/
def inBounds (l : EventLine) : Bool :=
  (numpyIndex 72 (lonIndex l.xcyc)).isSome && (numpyIndex 44 (latIndex l.ycyc)).isSome

/-- A one-year file system: `d/ori_2001` holds a single point at longitude
10, latitude −40. -/
def wfs : String → Option (List EventLine) := fun p =>
  if p = "d/ori_2001" then some [⟨10, -40, 2001, 6, 15, 0⟩] else none

/-- The grid that ingesting `wfs` produces: one count in cell (2, 12). -/
def wGrid : Grid := Function.update zeroGrid (2, 12) 1

end TCtracker


namespace TCtracker

/-! ## Claim theorems -/

/-- Executable rational floor agrees with the mathematical one. -/
theorem ratFloor_eq (q : ℚ) : Rat.floor q = ⌊q⌋ := by
  rw [Rat.floor_def, Rat.floor_def']

/-- Truncation toward zero is floor on nonnegatives, ceiling on negatives. -/
theorem pyInt_eq (q : ℚ) : pyInt q = if 0 ≤ q then ⌊q⌋ else ⌈q⌉ := by
  unfold pyInt
  rcases le_or_lt 0 q with h | h
  · rw [if_pos h, if_pos h, ratFloor_eq]
  · rw [if_neg (not_le.mpr h), if_neg (not_le.mpr h), ratFloor_eq, Int.floor_neg, neg_neg]


/-- C7: a point at longitude −2.5° and a point at longitude 357.5°
(exactly `-DLON/2` and `360 − DLON/2` with `DLON = 5.0`) are binned into
the same longitude grid cell (cell 0), deterministically. -/
theorem C7_boundary_longitudes_same_cell :
    lonIndex (-2.5) = lonIndex 357.5 ∧ lonIndex (-2.5) = 0 := by
  constructor <;> with_unfolding_all decide

/-- C3 (counterexample): at longitude −4.0 the code's raw longitude index
`int(-4.0/5.0 + 0.5) = int(-0.3) = 0` differs from the claimed
`floor(-4.0/5.0 + 0.5) = -1`; the final index is 0, not the 71 the claimed
floor-then-wrap computation would give. -/
theorem C3_raw_index_counterexample :
    lonIndexRaw (-4) ≠ ⌊((-4 : ℚ)) / DLON + 1/2⌋ ∧
    lonIndexRaw (-4) = 0 ∧ ⌊((-4 : ℚ)) / DLON + 1/2⌋ = -1 ∧ lonIndex (-4) = 0 := by
  have hf : ⌊((-4 : ℚ)) / DLON + 1/2⌋ = -1 := by rw [DLON]; norm_num
  have hr : lonIndexRaw (-4) = 0 := by with_unfolding_all decide
  have hl : lonIndex (-4) = 0 := by with_unfolding_all decide
  exact ⟨by rw [hr, hf]; decide, hr, hf, hl⟩

/-- C3 (amended): the raw longitude index is `int(longitude/DLON + 0.5)`,
truncation toward zero, which agrees with `floor(longitude/DLON + 0.5)`
exactly when `longitude ≥ -DLON/2`; the wraparound rule is as claimed, with
`ix = 72`. -/
theorem C3_raw_index_amended :
    ix = 72 ∧
    ∀ x : ℚ,
      (lonIndex x =
        if lonIndexRaw x < 0 then ix + lonIndexRaw x
        else if lonIndexRaw x ≥ ix then lonIndexRaw x - ix
        else lonIndexRaw x) ∧
      (-(DLON) / 2 ≤ x → lonIndexRaw x = ⌊x / DLON + 1/2⌋) := by
  refine ⟨by with_unfolding_all decide, fun x => ⟨rfl, fun h => ?_⟩⟩
  have h5 : x / DLON = (1/5) * x := by rw [DLON]; ring
  have h0 : (0 : ℚ) ≤ x / DLON + 1/2 := by
    rw [h5]
    rw [DLON] at h
    nlinarith
  rw [lonIndexRaw, pyInt_eq, if_pos h0]

/-- C3 (witness): the amended equivalence applied at longitude 10. -/
theorem C3_raw_index_amended_witness :
    -(DLON) / 2 ≤ (10 : ℚ) ∧ lonIndexRaw 10 = ⌊(10 : ℚ) / DLON + 1/2⌋ := by
  have h : -(DLON) / 2 ≤ (10 : ℚ) := by with_unfolding_all decide
  exact ⟨h, (C3_raw_index_amended.2 10).2 h⟩

/-- C4: the line `182.3 -87.0 2001 6 15 0`, whose latitude is below
`SLAT = -86.0`, is ingested without any error: the code computes latitude
index `int(0.25) = 0`, which is inside the allocated range `[0, jx)`, and
silently increments cell `(36, 0)`.  No `BinningRangeError` is raised (none
exists in the source). -/
theorem C4_latitude_below_slat_binned_silently :
    latIndex (-87.0) = 0 ∧ (0 ≤ latIndex (-87.0) ∧ latIndex (-87.0) < jx) ∧
    (ingestLines zeroGrid [⟨182.3, -87.0, 2001, 6, 15, 0⟩]).isSome = true ∧
    (ingestLines zeroGrid [⟨182.3, -87.0, 2001, 6, 15, 0⟩]).getD zeroGrid (36, 0) = 1 := by
  refine ⟨?_, ⟨?_, ?_⟩, ?_, ?_⟩ <;> with_unfolding_all decide

/-- C9: parsing is a pure function of the report text: equal reports parse
to equal collections; there is no hidden mutable state in the embedding of
`_read_stats`, whose regexes and dict are all local to one call. -/
theorem C9_parse_deterministic :
    ∀ l1 l2 : List String, l1 = l2 → read_stats l1 = read_stats l2 :=
  fun _ _ h => congrArg read_stats h

/-- C9 (witness): determinism applied to the §8 scenario report. -/
theorem C9_parse_deterministic_witness :
    read_stats sec8Report = read_stats sec8Report :=
  C9_parse_deterministic sec8Report sec8Report rfl

set_option maxRecDepth 400000 in
/-- C1 (counterexample): on the spec's §8 scenario the parser does NOT
yield the two keys `NH` and `SH`: the `SH` header line is consumed by the
inner loop as the boundary that finalizes `NH` and is never re-tested
against the header pattern, so the result has the single key `NH`. -/
theorem C1_back_to_back_counterexample :
    (read_stats sec8Report).map Prod.fst = ["NH"] ∧
    (read_stats sec8Report).lookup "SH" = none := by
  constructor <;> with_unfolding_all decide

set_option maxRecDepth 400000 in
/-- C1 (amended): on the §8 scenario the parser finalizes `NH` into the
result — with its one year entry and its `mean` row of 13 values — but the
back-to-back `SH` header is consumed as a boundary marker and `SH` is
absent. -/
theorem C1_back_to_back_amended :
    read_stats sec8Report = [("NH", nhBoxExpected)] ∧
    nhBoxExpected.storms.length = 1 ∧
    nhBoxExpected.stats.map (fun p => (p.1, p.2.length)) = [("mean", 13)] := by
  refine ⟨?_, ?_, ?_⟩ <;> with_unfolding_all decide

/-- Year lines and stat lines keep the inner `for line2 in f` loop running;
if every remaining line matches one of the two, the stream ends inside the
section and the open box is dropped (the loop ends without reaching the
`else` branch that stores it). -/
theorem readGo_inSec_drops (dataLines : List String) :
    ∀ acc box,
      (∀ l ∈ dataLines,
        (matchYearLn l.data).isSome = true ∨ (matchStatLn l.data).isSome = true) →
      readGo acc (.inSec box) dataLines = acc := by
  induction dataLines with
  | nil => intro acc box _; rfl
  | cons l rest ih =>
    intro acc box h
    have hl := h l (List.mem_cons_self l rest)
    have hrest := fun l' hm => h l' (List.mem_cons_of_mem _ hm)
    rcases hy : matchYearLn l.data with _ | ⟨⟨g1, g2, g3⟩⟩
    · rcases hs : matchStatLn l.data with _ | ⟨⟨g1, g2⟩⟩
      · rw [hy, hs] at hl; simp at hl
      · simp only [readGo, hy, hs]
        exact ih _ _ hrest
    · simp only [readGo, hy]
      exact ih _ _ hrest

/-- C2 (amended): when the end of the stream is reached while a region
section is still open — a header, the skipped column-header line, then
only year/stat data lines to the end — the parser DROPS the still-open
record instead of storing it: the result is exactly the mapping
accumulated before the section, and a report consisting of just that
section parses to the empty mapping. -/
theorem C2_eof_drops_open_record
    (acc : List (String × StormBox)) (hdr skipLine code : String)
    (dataLines : List String)
    (hhdr : matchBoxHdr hdr.data = some code)
    (hdata : ∀ l ∈ dataLines,
      (matchYearLn l.data).isSome = true ∨ (matchStatLn l.data).isSome = true) :
    readGo acc .seek (hdr :: skipLine :: dataLines) = acc ∧
    read_stats (hdr :: skipLine :: dataLines) = [] := by
  have main : ∀ acc', readGo acc' .seek (hdr :: skipLine :: dataLines) = acc' := by
    intro acc'
    simp only [readGo, hhdr]
    exact readGo_inSec_drops dataLines acc' _ hdata
  exact ⟨main acc, main []⟩

set_option maxRecDepth 400000 in
/-- C2 (counterexample): the stream of `eofOpenReport` ends while the `NH`
section is still open, and `NH` does not appear in the result — the
returned mapping is empty, contradicting the claim that the still-open
record is finalized and stored. -/
theorem C2_eof_open_counterexample :
    read_stats eofOpenReport = [] ∧ (read_stats eofOpenReport).lookup "NH" = none := by
  constructor <;> with_unfolding_all decide

set_option maxRecDepth 400000 in
/-- C2 (witness): the amended theorem applied to the concrete
`eofOpenReport`. -/
theorem C2_eof_drops_open_record_witness :
    readGo [] .seek eofOpenReport = [] ∧ read_stats eofOpenReport = [] :=
  C2_eof_drops_open_record [] "  *** Box = NH"
    "  yr  jan feb mar apr may jun jul aug sep oct nov dec  total" "NH"
    ["2001    1 2 3 4 5 6 7 8 9 10 11 12   78"]
    (by with_unfolding_all decide) (by with_unfolding_all decide)

end TCtracker

namespace TCtracker

/-! ## Lemmas about `pyRange` -/

/-- An empty Python range. -/
theorem pyRange_eq_nil {a b : ℤ} (h : b ≤ a) : pyRange a b = [] := by
  unfold pyRange
  have h0 : (b - a).toNat = 0 := by omega
  rw [h0]
  rfl

/-- Peeling the first year off a non-empty Python range. -/
theorem pyRange_cons {a b : ℤ} (h : a < b) : pyRange a b = a :: pyRange (a + 1) b := by
  unfold pyRange
  have h1 : (b - a).toNat = (b - (a + 1)).toNat + 1 := by omega
  rw [h1, List.range_succ_eq_map, List.map_cons, List.map_map]
  refine congrArg₂ _ (by simp) (List.map_congr_left fun k _ => ?_)
  simp only [Function.comp]
  push_cast
  ring

/-- Peeling the last year off a non-empty Python range. -/
theorem pyRange_concat {a b : ℤ} (h : a ≤ b) : pyRange a (b + 1) = pyRange a b ++ [b] := by
  unfold pyRange
  have h1 : (b + 1 - a).toNat = (b - a).toNat + 1 := by omega
  rw [h1, List.range_succ, List.map_append, List.map_cons, List.map_nil]
  have h2 : a + ((b - a).toNat : ℤ) = b := by omega
  rw [h2]

/-- Membership in a Python range. -/
theorem pyRange_mem {a b y : ℤ} : y ∈ pyRange a b ↔ a ≤ y ∧ y < b := by
  unfold pyRange
  simp only [List.mem_map, List.mem_range]
  constructor
  · rintro ⟨k, hk, rfl⟩
    omega
  · rintro ⟨h1, h2⟩
    exact ⟨(y - a).toNat, by omega, by omega⟩

/-- Python ranges list years in strictly ascending order. -/
theorem pyRange_ascending (a b : ℤ) : (pyRange a b).Pairwise (· < ·) :=
  (List.pairwise_lt_range _).map _ (fun _ _ h => by omega)

end TCtracker

namespace TCtracker

/-! ## Counting lemmas for the histogram -/

/-- The zero grid sums to zero. -/
theorem gridSum_zeroGrid : gridSum zeroGrid = 0 := Finset.sum_const_zero

/-- Incrementing one cell adds one to the total. -/
theorem gridSum_update (g : Grid) (c : Fin 72 × Fin 44) :
    gridSum (Function.update g c (g c + 1)) = gridSum g + 1 := by
  unfold gridSum
  rw [Finset.sum_update_of_mem (Finset.mem_univ c),
    Finset.sum_eq_sum_diff_singleton_add (Finset.mem_univ c) g]
  omega

/-- A successfully ingested line adds exactly one count. -/
theorem ingestLine_sum {g g' : Grid} {l : EventLine} (h : ingestLine g l = some g') :
    gridSum g' = gridSum g + 1 := by
  unfold ingestLine at h
  cases h1 : numpyIndex 72 (lonIndex l.xcyc) with
  | none => simp only [h1, reduceCtorEq] at h
  | some i =>
    cases h2 : numpyIndex 44 (latIndex l.ycyc) with
    | none => simp only [h1, h2, reduceCtorEq] at h
    | some j =>
      simp only [h1, h2, Option.some.injEq] at h
      subst h
      exact gridSum_update g (i, j)

set_option maxHeartbeats 2000000 in
/-- A successfully ingested list of lines adds exactly its length. -/
theorem ingestLines_sum :
    ∀ (ls : List EventLine) (g g' : Grid), ingestLines g ls = some g' →
      gridSum g' = gridSum g + ls.length := by
  intro ls
  induction ls with
  | nil =>
    intro g g' h
    simp only [ingestLines, Option.some.injEq] at h
    subst h
    simp
  | cons l rest ih =>
    intro g g' h
    unfold ingestLines at h
    cases h1 : ingestLine g l with
    | none => simp only [h1, reduceCtorEq] at h
    | some g1 =>
      simp only [h1] at h
      have := ih g1 g' h
      have := ingestLine_sum h1
      simp only [List.length_cons]
      omega

/-- Per-year version: a successful run of the reading-and-binning loop adds
one count per event line of each file read. -/
theorem oriInitGo_sum (fs : String → Option (List EventLine)) (dir : String) :
    ∀ (ys : List ℤ) (g0 g : Grid), oriInitGo fs dir ys g0 = .ok g →
      gridSum g = gridSum g0 +
        ((ys.map (fun y => ((fs (oriPath dir y)).getD []).length)).sum) := by
  intro ys
  induction ys with
  | nil =>
    intro g0 g h
    simp only [oriInitGo, Except.ok.injEq] at h
    subst h
    simp
  | cons y rest ih =>
    intro g0 g h
    unfold oriInitGo at h
    cases h1 : fs (oriPath dir y) with
    | none => simp only [h1, reduceCtorEq] at h
    | some ls =>
      simp only [h1] at h
      cases h2 : ingestLines g0 ls with
      | none => simp only [h2, reduceCtorEq] at h
      | some g1 =>
        simp only [h2] at h
        have hrest := ih g1 g h
        have hline := ingestLines_sum ls g0 g1 h2
        simp only [List.map_cons, List.sum_cons, h1, Option.getD_some]
        omega

/-- C5: if the construction of `storm_count` completes (every per-year file
present, every line binned without `IndexError`), and no point is out of
latitude range, the grid total equals the number of event points read, and
in particular never exceeds it. -/
theorem C5_grid_sum_equals_count (fs : String → Option (List EventLine))
    (dir : String) (begYear endYear : ℤ) (g : Grid)
    (hok : oriInit fs dir begYear endYear = .ok g)
    (hlat : ∀ y ∈ pyRange begYear (endYear + 1),
      ∀ l ∈ (fs (oriPath dir y)).getD [], 0 ≤ latIndex l.ycyc ∧ latIndex l.ycyc < jx) :
    gridSum g = ((pyRange begYear (endYear + 1)).map
      (fun y => ((fs (oriPath dir y)).getD []).length)).sum ∧
    gridSum g ≤ ((pyRange begYear (endYear + 1)).map
      (fun y => ((fs (oriPath dir y)).getD []).length)).sum := by
  have h := oriInitGo_sum fs dir (pyRange begYear (endYear + 1)) zeroGrid g hok
  rw [gridSum_zeroGrid] at h
  omega

/-- C5 (witness): one year, one in-range point: the grid sums to 1. -/
theorem C5_grid_sum_equals_count_witness :
    gridSum wGrid = ((pyRange 2001 (2001 + 1)).map
      (fun y => ((wfs (oriPath "d" y)).getD []).length)).sum ∧
    gridSum wGrid ≤ ((pyRange 2001 (2001 + 1)).map
      (fun y => ((wfs (oriPath "d" y)).getD []).length)).sum :=
  C5_grid_sum_equals_count wfs "d" 2001 2001 wGrid
    (by with_unfolding_all rfl)
    (by with_unfolding_all decide)

end TCtracker

namespace TCtracker

/-! ## Concatenation content (claim C6) -/

/-- The content accumulated by the `cat_ori_files` write loop is the
concatenation of the per-year file contents, in list order. -/
theorem cat_foldl_content (fs : String → List Char) (dir : String) :
    ∀ (l : List ℤ) (a : List Char) (f0 : String),
      (l.foldl (fun (acc : List Char × String) (year : ℤ) =>
        (acc.1 ++ fs (oriPath dir year), oriPath dir year)) (a, f0)).1 =
      a ++ (l.map (fun y => fs (oriPath dir y))).flatten := by
  intro l
  induction l with
  | nil => intro a f0; simp
  | cons y ys ih =>
    intro a f0
    simp only [List.foldl_cons, List.map_cons, List.flatten_cons]
    rw [ih]
    simp [List.append_assoc]

/-- C6: the combined file's content is byte-for-byte the concatenation of
the per-year files over the inclusive year range, in ascending year order;
for 2001..2003 it is `ori_2001 + ori_2002 + ori_2003`. -/
theorem C6_cat_content_is_concatenation (rp : String → String)
    (fs : String → List Char) (dir : String) (begYear endYear : ℤ) :
    (cat_ori_files rp fs dir begYear endYear "ori").1 =
      ((pyRange begYear (endYear + 1)).map (fun y => fs (oriPath dir y))).flatten ∧
    (pyRange begYear (endYear + 1)).Pairwise (· < ·) ∧
    (cat_ori_files rp fs dir 2001 2003 "ori").1 =
      fs (oriPath dir 2001) ++ (fs (oriPath dir 2002) ++ fs (oriPath dir 2003)) := by
  have hmain : ∀ (b e : ℤ), (cat_ori_files rp fs dir b e "ori").1 =
      ((pyRange b (e + 1)).map (fun y => fs (oriPath dir y))).flatten := by
    intro b e
    simp only [cat_ori_files]
    rw [cat_foldl_content]
    simp
  refine ⟨hmain _ _, pyRange_ascending _ _, ?_⟩
  rw [hmain 2001 2003]
  have h : pyRange 2001 (2003 + 1) = [2001, 2002, 2003] := by decide
  rw [h]
  simp

/-! ## The value returned by `cat_ori_files` (claim C10) -/

/-- Decimal digit lists are never empty. -/
theorem natDigits_ne_nil (n : ℕ) : natDigits n ≠ [] := by
  unfold natDigits natDigitsAux
  split
  · simp
  · simp

/-- Format `"{:04d}"` always produces at least four characters. -/
theorem pad4_length (y : ℤ) : 4 ≤ (pad4 y).length := by
  have hd1 : 0 < (natDigits y.natAbs).length :=
    List.length_pos.mpr (natDigits_ne_nil y.natAbs)
  have hlen : ∀ l : List Char, (String.mk l).length = l.length := fun l => rfl
  unfold pad4
  by_cases hy : y < 0
  · simp only [if_pos hy, hlen, List.length_append, List.length_replicate,
      List.length_singleton]
    omega
  · simp only [if_neg hy, hlen, List.length_append, List.length_replicate,
      List.length_nil]
    omega

/-- The per-year input paths are never the output name `"ori"`. -/
theorem oriPath_ne_ori (d : String) (y : ℤ) : oriPath d y ≠ "ori" := by
  have h4 : 4 ≤ (pad4 y).length := pad4_length y
  have hcat : ("ori_" ++ pad4 y).length = 4 + (pad4 y).length := by
    rw [String.length_append]
    rfl
  have hori : ("ori" : String).length = 3 := rfl
  have hslash : ("/" : String).length = 1 := rfl
  intro heq
  have hl := congrArg String.length heq
  unfold oriPath pathJoin at hl
  by_cases h1 : d = ""
  · rw [if_pos h1, hcat, hori] at hl
    omega
  · rw [if_neg h1] at hl
    by_cases h2 : d.endsWith "/"
    · rw [if_pos h2, String.length_append, hcat, hori] at hl
      omega
    · rw [if_neg h2, String.length_append, String.length_append, hslash, hcat,
        hori] at hl
      omega

/-- C10: with a non-empty year range, `cat_ori_files` returns the realpath
of the LAST per-year input file, `os.path.join(directory, "ori_<end_year>")`
— the loop re-binds `fname` — not the path of the combined `"ori"` file it
wrote. -/
theorem C10_returns_last_input_path (rp : String → String)
    (fs : String → List Char) (dir : String) (startYear endYear : ℤ)
    (h : startYear ≤ endYear) :
    (cat_ori_files rp fs dir startYear endYear "ori").2 =
      rp (oriPath dir endYear) ∧
    oriPath dir endYear ≠ "ori" := by
  refine ⟨?_, oriPath_ne_ori dir endYear⟩
  simp only [cat_ori_files]
  rw [pyRange_concat h, List.foldl_append]
  simp

/-- C10 (witness): the theorem applied to the range 2001..2003 with
`realpath` taken as the identity. -/
theorem C10_returns_last_input_path_witness :
    (cat_ori_files id (fun _ => []) "d" 2001 2003 "ori").2 =
      id (oriPath "d" 2003) ∧
    oriPath "d" 2003 ≠ "ori" :=
  C10_returns_last_input_path id (fun _ => []) "d" 2001 2003 (by decide)

/-! ## Missing per-year files (claim C8) -/

/-- In-bounds lines always ingest successfully, whatever the grid holds. -/
theorem ingestLines_isSome :
    ∀ (ls : List EventLine), (∀ l ∈ ls, inBounds l = true) →
      ∀ g, ∃ g', ingestLines g ls = some g' := by
  intro ls
  induction ls with
  | nil => intro _ g; exact ⟨g, rfl⟩
  | cons l rest ih =>
    intro h g
    have hl := h l (List.mem_cons_self l rest)
    unfold inBounds at hl
    rw [Bool.and_eq_true] at hl
    obtain ⟨hi, hj⟩ := hl
    obtain ⟨i, hi⟩ := Option.isSome_iff_exists.mp hi
    obtain ⟨j, hj⟩ := Option.isSome_iff_exists.mp hj
    obtain ⟨g', hg'⟩ := ih (fun l' hm => h l' (List.mem_cons_of_mem _ hm))
      (Function.update g (i, j) (g (i, j) + 1))
    refine ⟨g', ?_⟩
    unfold ingestLines
    unfold ingestLine
    simp only [hi, hj]
    exact hg'

/-- C8: if the event file for a year of the inclusive range is absent (and
the years before it were read and binned without other failures), the
construction fails with the `FileNotFoundError` for that year's file — the
condition the spec's `MissingDataError` kind names. -/
theorem C8_missing_year_errors (fs : String → Option (List EventLine))
    (dir : String) (begYear y0 endYear : ℤ)
    (h1 : begYear ≤ y0) (h2 : y0 ≤ endYear)
    (h3 : fs (oriPath dir y0) = none)
    (h4 : ∀ y ∈ pyRange begYear y0, (fs (oriPath dir y)).isSome = true ∧
      ∀ l ∈ (fs (oriPath dir y)).getD [], inBounds l = true) :
    oriInit fs dir begYear endYear = .error (.fileNotFound (oriPath dir y0)) := by
  suffices hgen : ∀ (n : ℕ) (b : ℤ) (g : Grid), (y0 - b).toNat = n → b ≤ y0 →
      (∀ y ∈ pyRange b y0, (fs (oriPath dir y)).isSome = true ∧
        ∀ l ∈ (fs (oriPath dir y)).getD [], inBounds l = true) →
      oriInitGo fs dir (pyRange b (endYear + 1)) g =
        .error (.fileNotFound (oriPath dir y0)) by
    exact hgen (y0 - begYear).toNat begYear zeroGrid rfl h1 h4
  intro n
  induction n with
  | zero =>
    intro b g hn hb _
    have hbe : b = y0 := by omega
    subst hbe
    rw [pyRange_cons (by omega : b < endYear + 1)]
    unfold oriInitGo
    simp only [h3]
  | succ n ih =>
    intro b g hn hb h4'
    have hblt : b < y0 := by omega
    obtain ⟨hsome, hbnd⟩ := h4' b (pyRange_mem.mpr ⟨le_refl b, hblt⟩)
    obtain ⟨ls, hls⟩ := Option.isSome_iff_exists.mp hsome
    rw [hls] at hbnd
    simp only [Option.getD_some] at hbnd
    obtain ⟨g', hg'⟩ := ingestLines_isSome ls hbnd g
    rw [pyRange_cons (by omega : b < endYear + 1)]
    unfold oriInitGo
    simp only [hls, hg']
    exact ih (b + 1) g' (by omega) (by omega)
      (fun y hy => h4' y (pyRange_mem.mpr (by have := pyRange_mem.mp hy; omega)))

/-- C8 (witness): in `wfs` the file `d/ori_2002` is absent, so building the
histogram for 2001..2002 fails with `FileNotFoundError` on that path. -/
theorem C8_missing_year_errors_witness :
    oriInit wfs "d" 2001 2002 = .error (.fileNotFound (oriPath "d" 2002)) :=
  C8_missing_year_errors wfs "d" 2001 2002 2002 (by decide) (by decide)
    (by with_unfolding_all decide) (by with_unfolding_all decide)

end TCtracker
